import Mathlib

/-!
Shallow embedding of the constraint-framework template→CRD synthesis and
validation pipeline (`constraint/pkg/client/crd_helpers.go`) together with
the generated deep-copy routines of the `v1alpha1` template API types, and
theorems checking the specification's claims against these definitions.

External collaborators (the runtime scheme's convert/default round trip,
the apiextensions structural validator, and the OpenAPI schema validator)
are modelled as function parameters: the embedded code is parametric in
them exactly where the Go code delegates to them.
-/

namespace Frameworks

/-- The externally-versioned (template-author-facing) JSON schema document
`apiextensionsv1beta1.JSONSchemaProps`; the pipeline treats it as opaque and
only ever hands it to the scheme's conversion, so it is modelled as an
opaque payload. -/
structure JSONSchemaPropsV1b1 where
  payload : String
deriving DecidableEq

/-- The internal `apiextensions.JSONSchemaProps`, restricted to the fields
the pipeline reads or writes: `Type` and `Properties`. -/
inductive JSONSchemaProps where
  | mk (type : String) (properties : List (String × JSONSchemaProps))

/-- The `Type` field of an internal schema. -/
def JSONSchemaProps.type : JSONSchemaProps → String
  | .mk t _ => t

/-- The `Properties` field of an internal schema, as an association list. -/
def JSONSchemaProps.properties : JSONSchemaProps → List (String × JSONSchemaProps)
  | .mk _ ps => ps

/-- Look a key up in a schema's `Properties` map. -/
def lookupProp (s : JSONSchemaProps) (k : String) : Option JSONSchemaProps :=
  (s.properties.find? (fun p => p.fst == k)).map Prod.snd

/-- Modelled from the spec: a `Target` is a value object identifying a
match-target by name; it carries no structural schema (the defining file of
the core `templates` package is not part of the shown source). -/
structure Target where
  target : String := ""
  rego : String := ""
deriving DecidableEq

/-- Modelled from the spec: the `Validation` wrapper of the core template
data model, holding the optional author-supplied parameter schema. -/
structure Validation where
  openAPIV3Schema : Option JSONSchemaPropsV1b1
deriving DecidableEq

/-- Modelled from the spec: `CRDNames` of the core template data model; the
pipeline only reads `Kind`. -/
structure CRDNames where
  kind : String
deriving DecidableEq

/-- Modelled from the spec: `CRDSpec` of the core template data model. -/
structure CRDSpec where
  names : CRDNames
  validation : Option Validation
deriving DecidableEq

/-- Modelled from the spec: `CRD` of the core template data model. -/
structure CRD where
  spec : CRDSpec
deriving DecidableEq

/-- Modelled from the spec: `ConstraintTemplateSpec`. `Targets` is a Go map
from target name to `Target`; `none` models a nil map and `some l` a map
with entries `l`. -/
structure ConstraintTemplateSpec where
  crd : CRD
  targets : Option (List (String × Target))
deriving DecidableEq

/-- Modelled from the spec: the top-level `ConstraintTemplate` resource (the
pipeline only reads its `Spec`). -/
structure ConstraintTemplate where
  spec : ConstraintTemplateSpec
deriving DecidableEq

/-- Go `len` on a possibly-nil map: `len` of a nil map is 0. -/
def targetsLen : Option (List (String × Target)) → Nat
  | none => 0
  | some l => l.length

/-- `validateTargets` ensures that the targets field has the appropriate
values (crd_helpers.go lines 27–36). -/
def validateTargets (templ : ConstraintTemplate) : Except String Unit :=
  if targetsLen templ.spec.targets > 1 then
    Except.error "Multi-target templates are not currently supported"
  else if templ.spec.targets = none then
    Except.error "Field \"targets\" not specified in ConstraintTemplate spec"
  else if targetsLen templ.spec.targets = 0 then
    Except.error "No targets specified. ConstraintTemplate must specify one target"
  else
    Except.ok ()

/-- Wrap a property list the way `createSchema` does: an outer schema whose
only property is `spec`, holding the given properties. -/
def wrapSpec (props : List (String × JSONSchemaProps)) : JSONSchemaProps :=
  JSONSchemaProps.mk "" [("spec", JSONSchemaProps.mk "" props)]

/-- The fixed `match`/`enforcementAction` property list every composed
schema starts from. -/
def baseProps (matchSchema : JSONSchemaProps) : List (String × JSONSchemaProps) :=
  [("match", matchSchema), ("enforcementAction", JSONSchemaProps.mk "string" [])]

/-- `createSchema` combines the schema of the match target and the
ConstraintTemplate parameters to form the schema of the actual constraint
resource (crd_helpers.go lines 40–60). `convert` stands for
`h.scheme.Convert` on schema documents, and `matchSchema` for
`target.MatchSchema()`. -/
def createSchema (convert : JSONSchemaPropsV1b1 → Except String JSONSchemaProps)
    (templ : ConstraintTemplate) (matchSchema : JSONSchemaProps) :
    Except String JSONSchemaProps :=
  match templ.spec.crd.spec.validation with
  | some v =>
    match v.openAPIV3Schema with
    | some ext =>
      match convert ext with
      | Except.error e => Except.error e
      | Except.ok internalSchema =>
        Except.ok (wrapSpec (baseProps matchSchema ++ [("parameters", internalSchema)]))
    | none => Except.ok (wrapSpec (baseProps matchSchema))
  | none => Except.ok (wrapSpec (baseProps matchSchema))

/-- Modelled from the spec: the fixed policy-framework API group
(`constraintGroup` in the client package; its defining file is not part of
the shown source). All claims only need it to be one fixed string. -/
def constraintGroup : String := "constraints.gatekeeper.sh"

/-- Modelled from the spec: the legacy, served-only API version
(`v1alpha1.SchemeGroupVersion.Version`; defined outside the shown source). -/
def v1alpha1Version : String := "v1alpha1"

/-- Modelled from the spec: the current stable, served-and-storage API
version (`v1beta1.SchemeGroupVersion.Version`; defined outside the shown
source). -/
def v1beta1Version : String := "v1beta1"

/-- The `supportedVersions` set (crd_helpers.go lines 21–24), as a
membership test. -/
def supportedVersions (v : String) : Bool :=
  v == v1alpha1Version || v == v1beta1Version

/-- One entry of a CRD's `Versions` list. -/
structure CustomResourceDefinitionVersion where
  name : String
  served : Bool
  storage : Bool
deriving DecidableEq

/-- `apiextensions.CustomResourceDefinitionNames`, restricted to the fields
the pipeline writes. -/
structure CustomResourceDefinitionNames where
  kind : String
  listKind : String
  plural : String
  singular : String
  categories : List String
deriving DecidableEq

/-- `apiextensions.CustomResourceValidation`: the composed schema holder. -/
structure CustomResourceValidation where
  openAPIV3Schema : Option JSONSchemaProps

/-- `apiextensions.CustomResourceDefinitionSpec`, restricted to the fields
the pipeline writes or reads. -/
structure CustomResourceDefinitionSpec where
  group : String
  names : CustomResourceDefinitionNames
  validation : Option CustomResourceValidation
  scope : String
  version : String
  versions : List CustomResourceDefinitionVersion

/-- `apiextensions.CustomResourceDefinition`: `name` is `ObjectMeta.Name`. -/
structure CustomResourceDefinition where
  name : String
  spec : CustomResourceDefinitionSpec

/-- `createCRD` takes a template and a schema and converts it to a CRD
(crd_helpers.go lines 77–124). `roundTrip` stands for the composite
external round trip `Convert(crd, v1b1); Default(v1b1); Convert(v1b1, crd2)`
through the scheme; failure of either conversion is its error case. The
object name is assigned afterwards from the pre-round-trip `crd`, exactly
as in the source. -/
def createCRD (roundTrip : CustomResourceDefinition → Except String CustomResourceDefinition)
    (templ : ConstraintTemplate) (schema : JSONSchemaProps) :
    Except String CustomResourceDefinition :=
  let crd : CustomResourceDefinition :=
    { name := ""
      spec :=
        { group := constraintGroup
          names :=
            { kind := templ.spec.crd.spec.names.kind
              listKind := templ.spec.crd.spec.names.kind ++ "List"
              plural := (templ.spec.crd.spec.names.kind).toLower
              singular := (templ.spec.crd.spec.names.kind).toLower
              categories := ["all", "constraint"] }
          validation := some { openAPIV3Schema := some schema }
          scope := "Cluster"
          version := v1beta1Version
          versions :=
            [ { name := v1beta1Version, served := true, storage := true },
              { name := v1alpha1Version, served := true, storage := false } ] } }
  match roundTrip crd with
  | Except.error e => Except.error e
  | Except.ok crd2 =>
    Except.ok { crd2 with name := crd.spec.names.plural ++ "." ++ constraintGroup }

/-- `validateCRD` calls the CRD package's validation on an internal
representation of the CRD (crd_helpers.go lines 127–133).
`platformValidation` stands for the external
`apiextensionsvalidation.ValidateCustomResourceDefinition`, which returns a
list of field errors; the aggregate error carries the whole list, matching
`ErrorList.ToAggregate`. -/
def validateCRD (platformValidation : CustomResourceDefinition → List String)
    (crd : CustomResourceDefinition) : Except (List String) Unit :=
  let errs := platformValidation crd
  if errs.length > 0 then Except.error errs else Except.ok ()

/-- The parts of an `unstructured.Unstructured` constraint instance that
`validateCR` reads: `GetName`, `GetKind`, `GroupVersionKind().Group`,
`GroupVersionKind().Version`, and an opaque remainder consumed only by the
external schema validator. -/
structure Unstructured where
  name : String
  kind : String
  group : String
  version : String
  body : String := ""
deriving DecidableEq

/-- The distinct failure modes of `validateCR`, carrying the data the Go
code formats into each error message. -/
inductive CRError where
  | validatorConstruction (msg : String)
  | schemaErrors (errs : List String)
  | invalidName (name : String) (errs : List String)
  | wrongKind (name haveKind wantKind : String)
  | wrongGroup (name haveGroup wantGroup : String)
  | wrongVersion (name haveVersion : String) (supported : List String)
deriving DecidableEq

/-- Split a character list at every dot (the labels of a subdomain name;
splitting the empty string yields one empty label, as `strings.Split`
does). -/
def splitDot : List Char → List (List Char)
  | [] => [[]]
  | c :: cs =>
    if c = '.' then [] :: splitDot cs
    else
      match splitDot cs with
      | [] => [[c]]
      | l :: ls => (c :: l) :: ls

/-- One DNS-1123 label: nonempty, lower-case alphanumerics and dashes, with
alphanumeric first and last characters. -/
def dns1123LabelOk (cs : List Char) : Bool :=
  !cs.isEmpty &&
  cs.all (fun c => c.isLower || c.isDigit || c == '-') &&
  (cs.head?.elim false fun c => c.isLower || c.isDigit) &&
  (cs.getLast?.elim false fun c => c.isLower || c.isDigit)

/-- Modelled from the spec: the platform's subdomain-name syntax check
(`apivalidation.IsDNS1123Subdomain`, external to the shown source):
dot-separated DNS-1123 labels, total length at most 253; returns the list
of violation messages, empty exactly when the name is valid. -/
def isDNS1123Subdomain (s : String) : List String :=
  (if s.length ≤ 253 then [] else
    ["must be no more than 253 characters"]) ++
  (if (splitDot s.toList).all dns1123LabelOk then [] else
    ["a lowercase RFC 1123 subdomain must consist of lower case alphanumeric characters, - or ."])

/-- `validateCR` validates the provided custom resource against its
CustomResourceDefinition (crd_helpers.go lines 136–157).
`newSchemaValidator` stands for the external
`validation.NewSchemaValidator`; a constructed validator returns the field
errors of `validation.ValidateCustomResource` (empty list = no errors,
matching a nil `ErrorList`). -/
def validateCR
    (newSchemaValidator :
      Option CustomResourceValidation → Except String (Unstructured → List String))
    (cr : Unstructured) (crd : CustomResourceDefinition) : Except CRError Unit :=
  match newSchemaValidator crd.spec.validation with
  | Except.error e => Except.error (CRError.validatorConstruction e)
  | Except.ok validator =>
    let schemaErrs := validator cr
    if schemaErrs.length ≠ 0 then
      Except.error (CRError.schemaErrors schemaErrs)
    else
      let nameErrs := isDNS1123Subdomain cr.name
      if nameErrs.length ≠ 0 then
        Except.error (CRError.invalidName cr.name nameErrs)
      else if cr.kind ≠ crd.spec.names.kind then
        Except.error (CRError.wrongKind cr.name cr.kind crd.spec.names.kind)
      else if cr.group ≠ constraintGroup then
        Except.error (CRError.wrongGroup cr.name cr.group constraintGroup)
      else if !(supportedVersions cr.version) then
        Except.error (CRError.wrongVersion cr.name cr.version [v1alpha1Version, v1beta1Version])
      else
        Except.ok ()

/-!
Embedding of the generated `v1alpha1` deep-copy routines
(`zz_generated.deepcopy`-style source, `src/unnamed/part_000`). Go pointer
and map aliasing is made explicit with a small heap: `Targets` maps,
`Validation` values and the inner schema documents live in addressed cells,
and the structs hold addresses. Deep-copy is then a heap-transforming
function translated from the source, and the deep-independence claims are
about address disjointness and about writes to cells.
-/

namespace V1alpha1

/-- Opaque payload of the external `JSONSchemaProps` pointed to by
`Validation.OpenAPIV3Schema`; its own `DeepCopy` is external to the shown
source. -/
structure SchemaVal where
  payload : String
deriving DecidableEq

/-- The `v1alpha1.Target` value object; copied by plain assignment in the
source (`*out = *in`), so modelled as a pure value. -/
structure Target where
  target : String := ""
  rego : String := ""
deriving DecidableEq

/-- `v1alpha1.CRDNames`: copied by plain assignment (`out.Names = in.Names`). -/
structure CRDNames where
  kind : String := ""
deriving DecidableEq

/-- `v1alpha1.Validation`: `openAPIV3Schema` is a Go pointer, modelled as an
optional address of a schema cell. -/
structure Validation where
  openAPIV3Schema : Option Nat := none
deriving DecidableEq

/-- `v1alpha1.CRDSpec`: `validation` is a Go pointer to a `Validation`,
modelled as an optional address of a validation cell. -/
structure CRDSpec where
  names : CRDNames
  validation : Option Nat
deriving DecidableEq

/-- `v1alpha1.CRD`. -/
structure CRD where
  spec : CRDSpec
deriving DecidableEq

/-- `v1alpha1.ConstraintTemplateSpec`: `targets` is a Go map (a reference),
modelled as an optional address of a map cell; `none` models a nil map. -/
structure ConstraintTemplateSpec where
  crd : CRD
  targets : Option Nat
deriving DecidableEq

/-- `v1alpha1.ConstraintTemplate`: `objectMeta` and `status` are copied by
the external `ObjectMeta.DeepCopyInto` and by plain assignment, so they are
modelled as pure values. -/
structure ConstraintTemplate where
  objectMeta : String := ""
  spec : ConstraintTemplateSpec
  status : String := ""
deriving DecidableEq

/-- The explicit heap: `next` is the next fresh address; each kind of
heap-allocated entity has its own region, stored as an association list
(newest binding first). -/
structure Heap where
  next : Nat
  targetsMem : List (Nat × List (String × Target)) := []
  validationMem : List (Nat × Validation) := []
  schemaMem : List (Nat × SchemaVal) := []
deriving DecidableEq

/-- Look an address up in a memory region (newest binding wins). -/
def lookupMem {α : Type} (mem : List (Nat × α)) (a : Nat) : Option α :=
  (mem.find? (fun p => p.fst == a)).map Prod.snd

def Heap.lookupTargets (h : Heap) (a : Nat) : Option (List (String × Target)) :=
  lookupMem h.targetsMem a

def Heap.lookupValidation (h : Heap) (a : Nat) : Option Validation :=
  lookupMem h.validationMem a

def Heap.lookupSchema (h : Heap) (a : Nat) : Option SchemaVal :=
  lookupMem h.schemaMem a

/-- Allocate a fresh map cell (`make(map[string]Target, ...)`). -/
def Heap.allocTargets (h : Heap) (v : List (String × Target)) : Heap × Nat :=
  ({ h with next := h.next + 1, targetsMem := (h.next, v) :: h.targetsMem }, h.next)

/-- Allocate a fresh `Validation` cell (`new(Validation)`). -/
def Heap.allocValidation (h : Heap) (v : Validation) : Heap × Nat :=
  ({ h with next := h.next + 1, validationMem := (h.next, v) :: h.validationMem }, h.next)

/-- Allocate a fresh schema cell. -/
def Heap.allocSchema (h : Heap) (v : SchemaVal) : Heap × Nat :=
  ({ h with next := h.next + 1, schemaMem := (h.next, v) :: h.schemaMem }, h.next)

/-- Overwrite the map cell at `a` (mutation of a `Targets` map). -/
def Heap.writeTargets (h : Heap) (a : Nat) (v : List (String × Target)) : Heap :=
  { h with targetsMem := (a, v) :: h.targetsMem }

/-- Overwrite the `Validation` cell at `a` (mutation through the pointer). -/
def Heap.writeValidation (h : Heap) (a : Nat) (v : Validation) : Heap :=
  { h with validationMem := (a, v) :: h.validationMem }

/-- Overwrite the schema cell at `a` (mutation of the nested schema). -/
def Heap.writeSchema (h : Heap) (a : Nat) (v : SchemaVal) : Heap :=
  { h with schemaMem := (a, v) :: h.schemaMem }

/-- Modelled from the spec: the inner schema's own independent-copy
operation (the external `JSONSchemaProps.DeepCopy` invoked at
`Validation.DeepCopyInto`): allocate a fresh cell holding an equal value. -/
def schemaDeepCopy (h : Heap) (a : Nat) : Heap × Nat :=
  Heap.allocSchema h ((h.lookupSchema a).getD { payload := "" })

/-- `Validation.DeepCopyInto` (source lines 198–205): `*out = *in`, then if
the schema pointer is non-nil, replace it with its own deep copy. -/
def Validation.deepCopyVal (h : Heap) (v : Validation) : Heap × Validation :=
  match v.openAPIV3Schema with
  | none => (h, v)
  | some a =>
    let r := schemaDeepCopy h a
    (r.fst, { openAPIV3Schema := some r.snd })

/-- `CRDSpec.DeepCopyInto` (source lines 59–68): `*out = *in`,
`out.Names = in.Names`, then if `in.Validation` is non-nil, allocate a new
`Validation` and deep-copy into it. -/
def CRDSpec.deepCopy (h : Heap) (s : CRDSpec) : Heap × CRDSpec :=
  match s.validation with
  | none => (h, s)
  | some a =>
    let vin := (h.lookupValidation a).getD {}
    let r := Validation.deepCopyVal h vin
    let r2 := Heap.allocValidation r.fst r.snd
    (r2.fst, { names := s.names, validation := some r2.snd })

/-- `CRD.DeepCopyInto` (source lines 26–30): `*out = *in`, then deep-copy
the spec. -/
def CRD.deepCopy (h : Heap) (c : CRD) : Heap × CRD :=
  let r := CRDSpec.deepCopy h c.spec
  (r.fst, { spec := r.snd })

/-- `ConstraintTemplateSpec.DeepCopyInto` (source lines 142–153):
`*out = *in`, deep-copy `CRD`, then if `in.Targets` is non-nil allocate a
new map and copy every entry into it. -/
def ConstraintTemplateSpec.deepCopy (h : Heap) (s : ConstraintTemplateSpec) :
    Heap × ConstraintTemplateSpec :=
  let r := CRD.deepCopy h s.crd
  match s.targets with
  | none => (r.fst, { crd := r.snd, targets := none })
  | some a =>
    let m := (Heap.lookupTargets r.fst a).getD []
    let r2 := Heap.allocTargets r.fst m
    (r2.fst, { crd := r.snd, targets := some r2.snd })

/-- `ConstraintTemplate.DeepCopy` via `DeepCopyInto` (source lines 81–98):
`TypeMeta`/`Status` by assignment, `ObjectMeta` by its external deep copy
(value-modelled), `Spec` by deep copy. -/
def ConstraintTemplate.deepCopy (h : Heap) (t : ConstraintTemplate) :
    Heap × ConstraintTemplate :=
  let r := ConstraintTemplateSpec.deepCopy h t.spec
  (r.fst, { objectMeta := t.objectMeta, spec := r.snd, status := t.status })

/-- The heap addresses reachable through an optional `Validation` pointer:
the validation cell itself and the schema cell its content points to. -/
def addrsValidation (h : Heap) : Option Nat → List Nat
  | none => []
  | some a => a :: ((h.lookupValidation a).getD {}).openAPIV3Schema.toList

/-- The heap addresses reachable from a template: its targets map cell and
everything reachable through its validation pointer. -/
def ConstraintTemplate.addrs (h : Heap) (t : ConstraintTemplate) : List Nat :=
  t.spec.targets.toList ++ addrsValidation h t.spec.crd.spec.validation

/-- A template is valid for a heap when every address reachable from it is
below the heap's allocation frontier. -/
def ConstraintTemplate.validFor (t : ConstraintTemplate) (h : Heap) : Prop :=
  ∀ a ∈ t.addrs h, a < h.next

instance (t : ConstraintTemplate) (h : Heap) : Decidable (t.validFor h) :=
  inferInstanceAs (Decidable (∀ a ∈ t.addrs h, a < h.next))

/-- Dereference an optional `Validation` pointer to its pointer-free view:
`none` for a nil pointer, otherwise the optional schema value behind the
cell's inner pointer (dangling pointers read as zero values). -/
def absValidation (h : Heap) : Option Nat → Option (Option SchemaVal)
  | none => none
  | some a =>
    some (match ((h.lookupValidation a).getD {}).openAPIV3Schema with
          | none => none
          | some b => some ((h.lookupSchema b).getD { payload := "" }))

/-- Dereference an optional targets-map pointer to its pointer-free view. -/
def absTargets (h : Heap) : Option Nat → Option (List (String × Target))
  | none => none
  | some a => some ((h.lookupTargets a).getD [])

/-- The pointer-free (abstract) view of a template in a heap. -/
structure AbsTemplate where
  objectMeta : String
  names : CRDNames
  validation : Option (Option SchemaVal)
  targets : Option (List (String × Target))
  status : String
deriving DecidableEq

/-- Dereference a template's pointers into its abstract view. -/
def absTemplate (h : Heap) (t : ConstraintTemplate) : AbsTemplate :=
  { objectMeta := t.objectMeta
    names := t.spec.crd.spec.names
    validation := absValidation h t.spec.crd.spec.validation
    targets := absTargets h t.spec.targets
    status := t.status }

/-- `h2` extends `h`: the allocation frontier only grows, and every lookup
below the old frontier is unchanged. -/
def Heap.ext (h h2 : Heap) : Prop :=
  h.next ≤ h2.next ∧
  ∀ a, a < h.next →
    h2.lookupTargets a = h.lookupTargets a ∧
    h2.lookupValidation a = h.lookupValidation a ∧
    h2.lookupSchema a = h.lookupSchema a

end V1alpha1

/-- Whether the template declares a parameter schema: the `Validation`
wrapper is present with a non-nil inner schema (the guard of
crd_helpers.go line 45). -/
def declaresParams (templ : ConstraintTemplate) : Bool :=
  match templ.spec.crd.spec.validation with
  | some v => v.openAPIV3Schema.isSome
  | none => false

/-- Step 2 of instance validation as an optional failure: the aggregated
schema errors, when any. -/
def checkSchema (validator : Unstructured → List String) (cr : Unstructured) : Option CRError :=
  if (validator cr).length ≠ 0 then some (CRError.schemaErrors (validator cr)) else none

/-- Step 3: the name-syntax failure, when any. -/
def checkName (cr : Unstructured) : Option CRError :=
  if (isDNS1123Subdomain cr.name).length ≠ 0 then
    some (CRError.invalidName cr.name (isDNS1123Subdomain cr.name))
  else none

/-- Step 4: the kind-mismatch failure, when any. -/
def checkKind (cr : Unstructured) (crd : CustomResourceDefinition) : Option CRError :=
  if cr.kind ≠ crd.spec.names.kind then
    some (CRError.wrongKind cr.name cr.kind crd.spec.names.kind)
  else none

/-- Step 5: the group-mismatch failure, when any. -/
def checkGroup (cr : Unstructured) : Option CRError :=
  if cr.group ≠ constraintGroup then
    some (CRError.wrongGroup cr.name cr.group constraintGroup)
  else none

/-- Step 6: the version-mismatch failure, when any. -/
def checkVersion (cr : Unstructured) : Option CRError :=
  if !(supportedVersions cr.version) then
    some (CRError.wrongVersion cr.name cr.version [v1alpha1Version, v1beta1Version])
  else none

/-- The first failure in a list of optional failures (stopping at the first
step that fails). -/
def firstErr : List (Option CRError) → Option CRError
  | [] => none
  | none :: rest => firstErr rest
  | some e :: _ => some e

/-- A concrete synthesized definition expecting kind `K8sRequiredLabels`,
used by concrete scenarios. -/
def crdK8s : CustomResourceDefinition :=
  { name := "k8srequiredlabels." ++ constraintGroup
    spec :=
      { group := constraintGroup
        names :=
          { kind := "K8sRequiredLabels", listKind := "K8sRequiredLabelsList",
            plural := "k8srequiredlabels", singular := "k8srequiredlabels",
            categories := ["all", "constraint"] }
        validation := some { openAPIV3Schema := some (JSONSchemaProps.mk "" []) }
        scope := "Cluster"
        version := v1beta1Version
        versions :=
          [ { name := v1beta1Version, served := true, storage := true },
            { name := v1alpha1Version, served := true, storage := false } ] } }

/-- A concrete instance with a syntactically valid name but kind `Other`. -/
def crOtherKind : Unstructured :=
  { name := "my-constraint", kind := "Other", group := constraintGroup,
    version := "v1beta1", body := "" }

/-- A schema-validator constructor whose construction succeeds and whose
validator reports one field error for every document (standing for an
instance body that violates the composed schema). -/
def rejectingValidator :
    Option CustomResourceValidation → Except String (Unstructured → List String) :=
  fun _ => Except.ok (fun _ => ["spec.parameters.labels in body must be of type array"])

/-- A schema-validator constructor whose validator accepts every document. -/
def acceptingValidator :
    Option CustomResourceValidation → Except String (Unstructured → List String) :=
  fun _ => Except.ok (fun _ => [])

/-- The same template with the `Validation` wrapper removed. -/
def withoutValidation (templ : ConstraintTemplate) : ConstraintTemplate :=
  { spec :=
    { crd := { spec := { names := templ.spec.crd.spec.names, validation := none } }
      targets := templ.spec.targets } }

/-! Theorems checking the claims. -/

/-- C1: `validateTargets` succeeds exactly on templates whose `Targets`
mapping has exactly one entry; a nil mapping, an empty mapping, and a
mapping with two or more entries all yield an error. -/
theorem c1_validateTargets_cardinality (templ : ConstraintTemplate) :
    (validateTargets templ = Except.ok () ↔ targetsLen templ.spec.targets = 1) ∧
    (targetsLen templ.spec.targets ≠ 1 →
      ∃ e, validateTargets templ = Except.error e) := by
  rcases htg : templ.spec.targets with _ | (_ | ⟨x, _ | l⟩)
  · simp [validateTargets, htg, targetsLen]
  · simp [validateTargets, htg, targetsLen]
  · simp [validateTargets, htg, targetsLen]
  · simp [validateTargets, htg, targetsLen]

/-- C1 witness: a template with a single target passes, one with two
targets fails. -/
theorem c1_witness :
    validateTargets
      { spec :=
        { crd := { spec := { names := { kind := "K8sRequiredLabels" }, validation := none } }
          targets := some [("t1", {})] } } = Except.ok () :=
  (c1_validateTargets_cardinality _).1.mpr (by decide)

/-- C2: a composed schema returned successfully by `createSchema` has the
single top-level property `spec`, whose properties hold `match` (the
target's fragment) and `enforcementAction` (a string-typed schema), and hold
`parameters` exactly when the template declares a parameter schema. -/
theorem c2_createSchema_shape
    (convert : JSONSchemaPropsV1b1 → Except String JSONSchemaProps)
    (templ : ConstraintTemplate) (matchSchema out : JSONSchemaProps)
    (h : createSchema convert templ matchSchema = Except.ok out) :
    out.properties.map Prod.fst = ["spec"] ∧
    ∃ specSchema, lookupProp out "spec" = some specSchema ∧
      lookupProp specSchema "match" = some matchSchema ∧
      lookupProp specSchema "enforcementAction" = some (JSONSchemaProps.mk "string" []) ∧
      (declaresParams templ = true → ∃ p, lookupProp specSchema "parameters" = some p) ∧
      (declaresParams templ = false → lookupProp specSchema "parameters" = none) := by
  obtain ⟨⟨⟨⟨names, validation⟩⟩, targets⟩⟩ := templ
  rcases validation with _ | ⟨innerSchema⟩
  · rw [createSchema] at h
    cases h
    refine ⟨by simp [wrapSpec, JSONSchemaProps.properties], ?_⟩
    refine ⟨JSONSchemaProps.mk "" (baseProps matchSchema), ?_, ?_, ?_, ?_, ?_⟩ <;>
      simp [wrapSpec, baseProps, lookupProp, JSONSchemaProps.properties, List.find?,
        declaresParams]
  · rcases innerSchema with _ | ext
    · rw [createSchema] at h
      cases h
      refine ⟨by simp [wrapSpec, JSONSchemaProps.properties], ?_⟩
      refine ⟨JSONSchemaProps.mk "" (baseProps matchSchema), ?_, ?_, ?_, ?_, ?_⟩ <;>
        simp [wrapSpec, baseProps, lookupProp, JSONSchemaProps.properties, List.find?,
          declaresParams]
    · rw [createSchema] at h
      dsimp only at h
      rcases hc : convert ext with e | internalSchema
      all_goals rw [hc] at h
      · cases h
      · cases h
        refine ⟨by simp [wrapSpec, JSONSchemaProps.properties], ?_⟩
        refine ⟨JSONSchemaProps.mk ""
          (baseProps matchSchema ++ [("parameters", internalSchema)]), ?_, ?_, ?_, ?_, ?_⟩ <;>
          simp [wrapSpec, baseProps, lookupProp, JSONSchemaProps.properties, List.find?,
            declaresParams]

/-- C2 witness: composing a parameterless template with a concrete match
fragment yields `match` and `enforcementAction` and no `parameters`. -/
theorem c2_witness :
    (JSONSchemaProps.mk ""
        [("spec", JSONSchemaProps.mk "" (baseProps (JSONSchemaProps.mk "object" [])))]).properties.map
      Prod.fst = ["spec"] ∧
    ∃ specSchema,
      lookupProp (JSONSchemaProps.mk ""
        [("spec", JSONSchemaProps.mk "" (baseProps (JSONSchemaProps.mk "object" [])))]) "spec" =
        some specSchema ∧
      lookupProp specSchema "match" = some (JSONSchemaProps.mk "object" []) ∧
      lookupProp specSchema "enforcementAction" = some (JSONSchemaProps.mk "string" []) ∧
      (declaresParams
          { spec :=
            { crd := { spec := { names := { kind := "K8sRequiredLabels" }, validation := none } }
              targets := some [("t1", {})] } } = true →
        ∃ p, lookupProp specSchema "parameters" = some p) ∧
      (declaresParams
          { spec :=
            { crd := { spec := { names := { kind := "K8sRequiredLabels" }, validation := none } }
              targets := some [("t1", {})] } } = false →
        lookupProp specSchema "parameters" = none) :=
  c2_createSchema_shape (fun _ => Except.error "unused")
    { spec :=
      { crd := { spec := { names := { kind := "K8sRequiredLabels" }, validation := none } }
        targets := some [("t1", {})] } }
    (JSONSchemaProps.mk "object" []) _ rfl

/-- C3: under a round trip that preserves the spec's names and group (as
the external conversion/defaulting does for fields that are already set),
a CRD produced by `createCRD` has `Plural`/`Singular` equal to the
lower-cased template kind, `ListKind` equal to the kind with "List"
appended, object name `<plural>.<group>`, and `Group` the fixed
policy-framework group. -/
theorem c3_createCRD_names
    (roundTrip : CustomResourceDefinition → Except String CustomResourceDefinition)
    (templ : ConstraintTemplate) (schema : JSONSchemaProps)
    (out : CustomResourceDefinition)
    (hpres : ∀ c c2, roundTrip c = Except.ok c2 →
      c2.spec.names = c.spec.names ∧ c2.spec.group = c.spec.group)
    (h : createCRD roundTrip templ schema = Except.ok out) :
    out.spec.names.plural = (templ.spec.crd.spec.names.kind).toLower ∧
    out.spec.names.singular = (templ.spec.crd.spec.names.kind).toLower ∧
    out.spec.names.listKind = templ.spec.crd.spec.names.kind ++ "List" ∧
    out.spec.names.kind = templ.spec.crd.spec.names.kind ∧
    out.name = (templ.spec.crd.spec.names.kind).toLower ++ "." ++ constraintGroup ∧
    out.spec.group = constraintGroup := by
  rw [createCRD] at h
  rcases hr : roundTrip _ with e | crd2
  all_goals rw [hr] at h
  · cases h
  · cases h
    obtain ⟨hnames, hgroup⟩ := hpres _ _ hr
    rw [hnames] at *
    simp_all

/-- C3 witness: a concrete template with kind `K8sRequiredLabels` under the
identity round trip gets plural `k8srequiredlabels` and the dotted name. -/
theorem c3_witness :
    ((createCRD Except.ok
        { spec :=
          { crd := { spec := { names := { kind := "K8sRequiredLabels" }, validation := none } }
            targets := some [("t1", {})] } }
        (JSONSchemaProps.mk "" [])).map fun out => out.name) =
      Except.ok (("K8sRequiredLabels").toLower ++ "." ++ constraintGroup) := by
  have h := c3_createCRD_names Except.ok
    { spec :=
      { crd := { spec := { names := { kind := "K8sRequiredLabels" }, validation := none } }
        targets := some [("t1", {})] } }
    (JSONSchemaProps.mk "" []) _
    (fun c c2 hc => by cases hc; exact ⟨rfl, rfl⟩) rfl
  exact congrArg Except.ok h.2.2.2.2.1

/-- C4: under a round trip that preserves the spec's versions list, a CRD
produced by `createCRD` declares exactly two versions: v1beta1 served and
storage, and v1alpha1 served but not storage. -/
theorem c4_createCRD_versions
    (roundTrip : CustomResourceDefinition → Except String CustomResourceDefinition)
    (templ : ConstraintTemplate) (schema : JSONSchemaProps)
    (out : CustomResourceDefinition)
    (hpres : ∀ c c2, roundTrip c = Except.ok c2 → c2.spec.versions = c.spec.versions)
    (h : createCRD roundTrip templ schema = Except.ok out) :
    out.spec.versions =
      [ { name := v1beta1Version, served := true, storage := true },
        { name := v1alpha1Version, served := true, storage := false } ] ∧
    out.spec.versions.length = 2 := by
  rw [createCRD] at h
  rcases hr : roundTrip _ with e | crd2
  all_goals rw [hr] at h
  · cases h
  · cases h
    have hv := hpres _ _ hr
    refine ⟨by simpa using hv, ?_⟩
    simp [hv]

/-- C4 witness: the identity round trip yields exactly the two declared
versions for a concrete template. -/
theorem c4_witness :
    ((createCRD Except.ok
        { spec :=
          { crd := { spec := { names := { kind := "K8sRequiredLabels" }, validation := none } }
            targets := some [("t1", {})] } }
        (JSONSchemaProps.mk "" [])).map fun out => out.spec.versions.length) =
      Except.ok 2 := by
  have h := c4_createCRD_versions Except.ok
    { spec :=
      { crd := { spec := { names := { kind := "K8sRequiredLabels" }, validation := none } }
        targets := some [("t1", {})] } }
    (JSONSchemaProps.mk "" []) _ (fun c c2 hc => by cases hc; rfl) rfl
  exact congrArg Except.ok h.2

/-- C5: `validateCR` is exactly the strict sequence: build the validator
(failing immediately on construction failure), then return the first
failure among schema validation, name syntax, kind, group, and version, in
that order. -/
theorem c5_validateCR_order
    (nsv : Option CustomResourceValidation → Except String (Unstructured → List String))
    (cr : Unstructured) (crd : CustomResourceDefinition) :
    validateCR nsv cr crd =
      match nsv crd.spec.validation with
      | Except.error e => Except.error (CRError.validatorConstruction e)
      | Except.ok validator =>
        match firstErr [checkSchema validator cr, checkName cr, checkKind cr crd,
            checkGroup cr, checkVersion cr] with
        | some e => Except.error e
        | none => Except.ok () := by
  rcases hn : nsv crd.spec.validation with e | validator
  · simp [validateCR, hn]
  · simp only [validateCR, hn]
    by_cases h1 : (validator cr).length ≠ 0
    · simp [h1, checkSchema, firstErr]
    · by_cases h2 : (isDNS1123Subdomain cr.name).length ≠ 0
      · simp [h1, h2, checkSchema, checkName, firstErr]
      · by_cases h3 : cr.kind ≠ crd.spec.names.kind
        · simp [h1, h2, h3, checkSchema, checkName, checkKind, firstErr]
        · by_cases h4 : cr.group ≠ constraintGroup
          · simp [h1, h2, h3, h4, checkSchema, checkName, checkKind, checkGroup, firstErr]
          · by_cases h5 : supportedVersions cr.version
            all_goals simp [h1, h2, h3, h4, h5, checkSchema, checkName, checkKind,
              checkGroup, checkVersion, firstErr]

/-- C5 witness: a fully conforming concrete instance passes the whole
sequence. -/
theorem c5_witness :
    validateCR acceptingValidator
      { name := "my-constraint", kind := "K8sRequiredLabels", group := constraintGroup,
        version := "v1beta1", body := "" } crdK8s = Except.ok () :=
  Eq.trans (c5_validateCR_order acceptingValidator
    { name := "my-constraint", kind := "K8sRequiredLabels", group := constraintGroup,
      version := "v1beta1", body := "" } crdK8s) (by rfl)

/-- C6 counterexample: an instance of kind `Other` with a valid name whose
body violates the schema yields the schema-validation error, not the
kind-mismatch error, so the claim's "regardless of whether the instance's
body is otherwise schema-valid" fails on the code. -/
theorem c6_counterexample :
    validateCR rejectingValidator crOtherKind crdK8s =
      Except.error (CRError.schemaErrors
        ["spec.parameters.labels in body must be of type array"]) ∧
    validateCR rejectingValidator crOtherKind crdK8s ≠
      Except.error (CRError.wrongKind "my-constraint" "Other" "K8sRequiredLabels") := by
  refine ⟨rfl, ?_⟩
  intro hcontra
  rw [show validateCR rejectingValidator crOtherKind crdK8s =
    Except.error (CRError.schemaErrors
      ["spec.parameters.labels in body must be of type array"]) from rfl] at hcontra
  simp at hcontra

/-- C6 (amended): when validator construction succeeds and the instance
passes schema validation and the name-syntax check, any kind mismatch
(such as kind `Other` against expected `K8sRequiredLabels`) yields the
kind-mismatch error naming both the expected and the actual kind. -/
theorem c6_kind_mismatch
    (nsv : Option CustomResourceValidation → Except String (Unstructured → List String))
    (cr : Unstructured) (crd : CustomResourceDefinition)
    (validator : Unstructured → List String)
    (hv : nsv crd.spec.validation = Except.ok validator)
    (hs : validator cr = [])
    (hn : isDNS1123Subdomain cr.name = [])
    (hk : cr.kind ≠ crd.spec.names.kind) :
    validateCR nsv cr crd =
      Except.error (CRError.wrongKind cr.name cr.kind crd.spec.names.kind) := by
  simp [validateCR, hv, hs, hn, hk]

/-- C6 witness: kind `Other` against the `K8sRequiredLabels` definition
with a schema-accepting validator reports the kind mismatch. -/
theorem c6_witness :
    validateCR acceptingValidator crOtherKind crdK8s =
      Except.error (CRError.wrongKind "my-constraint" "Other" "K8sRequiredLabels") :=
  c6_kind_mismatch acceptingValidator crOtherKind crdK8s (fun _ => [])
    rfl rfl (by rfl) (by decide)

/-- C7: once the earlier steps pass, `validateCR` accepts the instance's
API version exactly when it is one of the two declared versions, and any
other version is rejected with the error carrying the unsupported version
and the supported set; membership in `supportedVersions` is exactly being
v1alpha1 or v1beta1. -/
theorem c7_validateCR_version
    (nsv : Option CustomResourceValidation → Except String (Unstructured → List String))
    (cr : Unstructured) (crd : CustomResourceDefinition)
    (validator : Unstructured → List String)
    (hv : nsv crd.spec.validation = Except.ok validator)
    (hs : validator cr = [])
    (hn : isDNS1123Subdomain cr.name = [])
    (hk : cr.kind = crd.spec.names.kind)
    (hg : cr.group = constraintGroup) :
    (validateCR nsv cr crd = Except.ok () ↔
      (cr.version = v1alpha1Version ∨ cr.version = v1beta1Version)) ∧
    (cr.version ≠ v1alpha1Version → cr.version ≠ v1beta1Version →
      validateCR nsv cr crd =
        Except.error (CRError.wrongVersion cr.name cr.version
          [v1alpha1Version, v1beta1Version])) ∧
    (supportedVersions cr.version = true ↔
      (cr.version = v1alpha1Version ∨ cr.version = v1beta1Version)) := by
  have hsup : supportedVersions cr.version = true ↔
      (cr.version = v1alpha1Version ∨ cr.version = v1beta1Version) := by
    simp [supportedVersions]
  refine ⟨?_, ?_, hsup⟩
  · by_cases hver : supportedVersions cr.version
    · simp [validateCR, hv, hs, hn, hk, hg, hver, hsup.mp hver]
    · simp only [Bool.not_eq_true] at hver
      have : ¬(cr.version = v1alpha1Version ∨ cr.version = v1beta1Version) := by
        rw [← hsup, hver]; simp
      simp [validateCR, hv, hs, hn, hk, hg, hver, this]
  · intro h1 h2
    have hver : supportedVersions cr.version = false := by
      rw [← Bool.not_eq_true, hsup]; simp [h1, h2]
    simp [validateCR, hv, hs, hn, hk, hg, hver]

/-- C7 witness: version `v2` is rejected with the version error, while
`v1beta1` is accepted. -/
theorem c7_witness :
    validateCR acceptingValidator
      { name := "my-constraint", kind := "K8sRequiredLabels", group := constraintGroup,
        version := "v2", body := "" } crdK8s =
      Except.error (CRError.wrongVersion "my-constraint" "v2"
        [v1alpha1Version, v1beta1Version]) :=
  (c7_validateCR_version acceptingValidator
    { name := "my-constraint", kind := "K8sRequiredLabels", group := constraintGroup,
      version := "v2", body := "" } crdK8s (fun _ => [])
    rfl rfl (by rfl) rfl rfl).2.1 (by decide) (by decide)

/-- C8: `validateCRD` succeeds exactly when the platform's structural
validation reports zero errors, and otherwise returns the single aggregate
carrying every reported error; the schema-validation step of `validateCR`
likewise returns all field errors as one aggregate. -/
theorem c8_validateCRD_aggregates
    (platformValidation : CustomResourceDefinition → List String)
    (crd : CustomResourceDefinition) :
    (validateCRD platformValidation crd = Except.ok () ↔ platformValidation crd = []) ∧
    (platformValidation crd ≠ [] →
      validateCRD platformValidation crd = Except.error (platformValidation crd)) ∧
    (∀ (nsv : Option CustomResourceValidation → Except String (Unstructured → List String))
        (cr : Unstructured) (validator : Unstructured → List String),
      nsv crd.spec.validation = Except.ok validator → validator cr ≠ [] →
      validateCR nsv cr crd = Except.error (CRError.schemaErrors (validator cr))) := by
  refine ⟨?_, ?_, ?_⟩
  · rcases hpe : platformValidation crd with _ | ⟨x, xs⟩ <;>
      simp [validateCRD, hpe]
  · intro hne
    rcases hpe : platformValidation crd with _ | ⟨x, xs⟩
    · exact absurd hpe hne
    · simp [validateCRD, hpe]
  · intro nsv cr validator hv hne
    have hlen : (validator cr).length ≠ 0 := by
      simpa [List.length_eq_zero] using hne
    simp [validateCR, hv, hlen]

/-- C8 witness: two field errors are aggregated into one combined error,
and an error-free validation returns success. -/
theorem c8_witness :
    validateCRD (fun _ => ["spec.names.kind: Required value", "spec.group: Required value"])
      crdK8s =
      Except.error ["spec.names.kind: Required value", "spec.group: Required value"] :=
  (c8_validateCRD_aggregates
    (fun _ => ["spec.names.kind: Required value", "spec.group: Required value"]) crdK8s).2.1
    (by decide)

/-- C10: when the `Validation` wrapper is present but its inner schema is
nil, `createSchema` succeeds without invoking the conversion, the composed
schema is exactly the parameterless one (no `parameters` property), and the
result coincides with that for the template with the wrapper absent. -/
theorem c10_createSchema_nilInnerSchema
    (convert : JSONSchemaPropsV1b1 → Except String JSONSchemaProps)
    (templ : ConstraintTemplate) (matchSchema : JSONSchemaProps) (v : Validation)
    (hv : templ.spec.crd.spec.validation = some v)
    (hs : v.openAPIV3Schema = none) :
    createSchema convert templ matchSchema = Except.ok (wrapSpec (baseProps matchSchema)) ∧
    createSchema convert (withoutValidation templ) matchSchema =
      createSchema convert templ matchSchema ∧
    lookupProp (JSONSchemaProps.mk "" (baseProps matchSchema)) "parameters" = none := by
  obtain ⟨⟨⟨⟨names, validation⟩⟩, targets⟩⟩ := templ
  simp only at hv
  subst hv
  refine ⟨?_, ?_, ?_⟩
  · simp [createSchema, hs]
  · simp [createSchema, withoutValidation, hs]
  · rfl

/-- C10 witness: a concrete template with an empty `Validation` wrapper
composes to the parameterless schema even under a failing converter. -/
theorem c10_witness :
    createSchema (fun _ => Except.error "conversion must not be reached")
      { spec :=
        { crd :=
          { spec :=
            { names := { kind := "K8sRequiredLabels" }
              validation := some { openAPIV3Schema := none } } }
          targets := some [("t1", {})] } }
      (JSONSchemaProps.mk "object" []) =
      Except.ok (wrapSpec (baseProps (JSONSchemaProps.mk "object" []))) :=
  (c10_createSchema_nilInnerSchema (fun _ => Except.error "conversion must not be reached")
    { spec :=
      { crd :=
        { spec :=
          { names := { kind := "K8sRequiredLabels" }
            validation := some { openAPIV3Schema := none } } }
        targets := some [("t1", {})] } }
    (JSONSchemaProps.mk "object" []) { openAPIV3Schema := none } rfl rfl).1

namespace V1alpha1

theorem lookupMem_cons_ne {α : Type} (mem : List (Nat × α)) (n a : Nat) (v : α)
    (hne : a ≠ n) : lookupMem ((n, v) :: mem) a = lookupMem mem a := by
  unfold lookupMem
  rw [List.find?_cons_of_neg]
  simp
  omega

theorem lookupMem_cons_self {α : Type} (mem : List (Nat × α)) (n : Nat) (v : α) :
    lookupMem ((n, v) :: mem) n = some v := by
  unfold lookupMem
  rw [List.find?_cons_of_pos] <;> simp

theorem Heap.ext_refl (h : Heap) : Heap.ext h h :=
  ⟨le_refl _, fun _ _ => ⟨rfl, rfl, rfl⟩⟩

theorem Heap.ext_trans {h1 h2 h3 : Heap} (e12 : Heap.ext h1 h2) (e23 : Heap.ext h2 h3) :
    Heap.ext h1 h3 := by
  obtain ⟨l12, f12⟩ := e12
  obtain ⟨l23, f23⟩ := e23
  refine ⟨le_trans l12 l23, fun a ha => ?_⟩
  obtain ⟨t1, v1, s1⟩ := f12 a ha
  obtain ⟨t2, v2, s2⟩ := f23 a (lt_of_lt_of_le ha l12)
  exact ⟨t2.trans t1, v2.trans v1, s2.trans s1⟩

theorem allocTargets_ext (h : Heap) (v : List (String × Target)) :
    Heap.ext h (h.allocTargets v).fst := by
  refine ⟨by simp [Heap.allocTargets], fun a ha => ?_⟩
  exact ⟨lookupMem_cons_ne _ _ _ _ (by omega), rfl, rfl⟩

theorem allocValidation_ext (h : Heap) (v : Validation) :
    Heap.ext h (h.allocValidation v).fst := by
  refine ⟨by simp [Heap.allocValidation], fun a ha => ?_⟩
  exact ⟨rfl, lookupMem_cons_ne _ _ _ _ (by omega), rfl⟩

theorem allocSchema_ext (h : Heap) (v : SchemaVal) :
    Heap.ext h (h.allocSchema v).fst := by
  refine ⟨by simp [Heap.allocSchema], fun a ha => ?_⟩
  exact ⟨rfl, rfl, lookupMem_cons_ne _ _ _ _ (by omega)⟩

theorem crdSpecDeepCopy_ext (h : Heap) (s : CRDSpec) :
    Heap.ext h (CRDSpec.deepCopy h s).fst := by
  rcases s with ⟨names, _ | av⟩
  · exact Heap.ext_refl h
  · simp only [CRDSpec.deepCopy]
    rcases hv : ((h.lookupValidation av).getD {}).openAPIV3Schema with _ | as
    all_goals simp only [Validation.deepCopyVal, hv]
    · exact allocValidation_ext h _
    · exact Heap.ext_trans (allocSchema_ext h _) (allocValidation_ext _ _)

theorem templateDeepCopy_ext (h : Heap) (t : ConstraintTemplate) :
    Heap.ext h (ConstraintTemplate.deepCopy h t).fst := by
  rcases t with ⟨om, ⟨⟨sp⟩, _ | atg⟩, st⟩
  · exact crdSpecDeepCopy_ext h sp
  · simp only [ConstraintTemplate.deepCopy, ConstraintTemplateSpec.deepCopy, CRD.deepCopy]
    exact Heap.ext_trans (crdSpecDeepCopy_ext h sp) (allocTargets_ext _ _)

theorem absValidation_ext {h h2 : Heap} (he : Heap.ext h h2) (v? : Option Nat)
    (hlt : ∀ a ∈ addrsValidation h v?, a < h.next) :
    absValidation h2 v? = absValidation h v? ∧
    addrsValidation h2 v? = addrsValidation h v? := by
  rcases v? with _ | av
  · exact ⟨rfl, rfl⟩
  · have hav : av < h.next := hlt av (by simp [addrsValidation])
    obtain ⟨-, hvl, -⟩ := he.2 av hav
    constructor
    · simp only [absValidation]
      rw [hvl]
      rcases hsch : ((h.lookupValidation av).getD {}).openAPIV3Schema with _ | as
      · simp [hsch]
      · have has : as < h.next := hlt as (by simp [addrsValidation, hsch])
        obtain ⟨-, -, hsl⟩ := he.2 as has
        simp [hsch, hsl]
    · simp only [addrsValidation]
      rw [hvl]

theorem absTargets_ext {h h2 : Heap} (he : Heap.ext h h2) (t? : Option Nat)
    (hlt : ∀ a ∈ t?.toList, a < h.next) :
    absTargets h2 t? = absTargets h t? := by
  rcases t? with _ | atg
  · rfl
  · have hat : atg < h.next := hlt atg (by simp)
    obtain ⟨htl, -, -⟩ := he.2 atg hat
    simp only [absTargets]
    rw [htl]

theorem absTargets_writeTargets_ne (h : Heap) (a : Nat) (m : List (String × Target))
    (t? : Option Nat) (hne : ∀ b ∈ t?.toList, a ≠ b) :
    absTargets (h.writeTargets a m) t? = absTargets h t? := by
  rcases t? with _ | bt
  · rfl
  · have hbt : bt ≠ a := fun hh => (hne bt (by simp)) hh.symm
    simp only [absTargets, Heap.writeTargets, Heap.lookupTargets]
    rw [lookupMem_cons_ne _ _ _ _ hbt]

theorem absValidation_writeValidation_ne (h : Heap) (a : Nat) (v : Validation)
    (v? : Option Nat) (hne : ∀ b ∈ addrsValidation h v?, a ≠ b) :
    absValidation (h.writeValidation a v) v? = absValidation h v? := by
  rcases v? with _ | av
  · rfl
  · have hav : av ≠ a := fun hh => (hne av (by simp [addrsValidation])) hh.symm
    simp only [absValidation, Heap.writeValidation, Heap.lookupValidation, Heap.lookupSchema]
    rw [lookupMem_cons_ne _ _ _ _ hav]

theorem absValidation_writeSchema_ne (h : Heap) (a : Nat) (sv : SchemaVal)
    (v? : Option Nat) (hne : ∀ b ∈ addrsValidation h v?, a ≠ b) :
    absValidation (h.writeSchema a sv) v? = absValidation h v? := by
  rcases v? with _ | av
  · rfl
  · simp only [absValidation, Heap.writeSchema, Heap.lookupValidation, Heap.lookupSchema]
    rcases hsch : ((lookupMem h.validationMem av).getD {}).openAPIV3Schema with _ | as
    · simp [hsch]
    · have has : as ≠ a := by
        refine fun hh => (hne as ?_) hh.symm
        simp [addrsValidation, Heap.lookupValidation, hsch]
      simp only [hsch]
      rw [lookupMem_cons_ne _ _ _ _ has]

theorem absTemplate_write_stable (h : Heap) (t : ConstraintTemplate) (a : Nat)
    (hd : ∀ b ∈ t.addrs h, a ≠ b) :
    (∀ m, absTemplate (h.writeTargets a m) t = absTemplate h t) ∧
    (∀ v, absTemplate (h.writeValidation a v) t = absTemplate h t) ∧
    (∀ sv, absTemplate (h.writeSchema a sv) t = absTemplate h t) := by
  have hdt : ∀ b ∈ t.spec.targets.toList, a ≠ b := fun b hb =>
    hd b (by simp [ConstraintTemplate.addrs, hb])
  have hdv : ∀ b ∈ addrsValidation h t.spec.crd.spec.validation, a ≠ b := fun b hb =>
    hd b (by simp [ConstraintTemplate.addrs, hb])
  refine ⟨fun m => ?_, fun v => ?_, fun sv => ?_⟩
  · simp only [absTemplate]
    rw [absTargets_writeTargets_ne h a m _ hdt]
    rcases hvv : t.spec.crd.spec.validation with _ | av <;> rfl
  · simp only [absTemplate]
    rw [absValidation_writeValidation_ne h a v _ hdv]
    rcases htg : t.spec.targets with _ | atg <;> rfl
  · simp only [absTemplate]
    rw [absValidation_writeSchema_ne h a sv _ hdv]
    rcases htg : t.spec.targets with _ | atg <;> rfl

theorem CRDSpec.deepCopy_spec (h : Heap) (s : CRDSpec) :
    (CRDSpec.deepCopy h s).snd.names = s.names ∧
    absValidation (CRDSpec.deepCopy h s).fst (CRDSpec.deepCopy h s).snd.validation =
      absValidation h s.validation ∧
    (∀ a ∈ addrsValidation (CRDSpec.deepCopy h s).fst (CRDSpec.deepCopy h s).snd.validation,
      h.next ≤ a ∧ a < (CRDSpec.deepCopy h s).fst.next) ∧
    (s.validation = none → (CRDSpec.deepCopy h s).snd.validation = none) := by
  rcases s with ⟨names, _ | av⟩
  · simp [CRDSpec.deepCopy, addrsValidation, absValidation]
  · simp only [CRDSpec.deepCopy]
    rcases hv : ((h.lookupValidation av).getD {}).openAPIV3Schema with _ | as
    all_goals simp only [Validation.deepCopyVal, hv]
    all_goals simp only [Heap.lookupValidation] at hv
    · refine ⟨by simp, ?_, ?_, by simp⟩
      · simp only [absValidation, Heap.allocValidation, Heap.lookupValidation,
          Heap.lookupSchema]
        rw [lookupMem_cons_self]
        simp [hv]
      · intro a ha
        simp only [addrsValidation, Heap.allocValidation, Heap.lookupValidation] at ha
        rw [lookupMem_cons_self] at ha
        simp [hv] at ha
        subst ha
        simp only [Heap.allocValidation]
        omega
    · refine ⟨by simp, ?_, ?_, by simp⟩
      · simp only [absValidation, schemaDeepCopy, Heap.allocSchema, Heap.allocValidation,
          Heap.lookupValidation, Heap.lookupSchema]
        rw [lookupMem_cons_self]
        simp only [Option.getD_some]
        rw [lookupMem_cons_self]
        simp [hv]
      · intro a ha
        simp only [addrsValidation, schemaDeepCopy, Heap.allocSchema, Heap.allocValidation,
          Heap.lookupValidation] at ha
        rw [lookupMem_cons_self] at ha
        simp at ha
        rcases ha with ha | ha <;> subst ha <;>
          simp only [Heap.allocSchema, Heap.allocValidation, schemaDeepCopy] <;> omega

/-- C9: deep-copying a template yields a structurally equal template whose
heap cells are entirely disjoint from the original's: the original's
abstract view is untouched by the copy, nil targets and nil validation copy
to nil, every reachable address of the copy differs from every reachable
address of the original, and mutating any reachable cell (targets map,
validation cell, or nested schema) of the copy leaves the original's
abstract view unchanged, and vice versa. -/
theorem c9_deepCopy_independence (h : Heap) (t : ConstraintTemplate)
    (hwf : t.validFor h) :
    absTemplate (ConstraintTemplate.deepCopy h t).fst (ConstraintTemplate.deepCopy h t).snd =
      absTemplate h t ∧
    absTemplate (ConstraintTemplate.deepCopy h t).fst t = absTemplate h t ∧
    (t.spec.crd.spec.validation = none →
      (ConstraintTemplate.deepCopy h t).snd.spec.crd.spec.validation = none) ∧
    (t.spec.targets = none → (ConstraintTemplate.deepCopy h t).snd.spec.targets = none) ∧
    (∀ a ∈ (ConstraintTemplate.deepCopy h t).snd.addrs (ConstraintTemplate.deepCopy h t).fst,
      ∀ b ∈ t.addrs (ConstraintTemplate.deepCopy h t).fst, a ≠ b) ∧
    (∀ a ∈ (ConstraintTemplate.deepCopy h t).snd.addrs (ConstraintTemplate.deepCopy h t).fst,
      (∀ m, absTemplate ((ConstraintTemplate.deepCopy h t).fst.writeTargets a m) t =
        absTemplate (ConstraintTemplate.deepCopy h t).fst t) ∧
      (∀ v, absTemplate ((ConstraintTemplate.deepCopy h t).fst.writeValidation a v) t =
        absTemplate (ConstraintTemplate.deepCopy h t).fst t) ∧
      (∀ sv, absTemplate ((ConstraintTemplate.deepCopy h t).fst.writeSchema a sv) t =
        absTemplate (ConstraintTemplate.deepCopy h t).fst t)) ∧
    (∀ b ∈ t.addrs (ConstraintTemplate.deepCopy h t).fst,
      (∀ m, absTemplate ((ConstraintTemplate.deepCopy h t).fst.writeTargets b m)
          (ConstraintTemplate.deepCopy h t).snd =
        absTemplate (ConstraintTemplate.deepCopy h t).fst (ConstraintTemplate.deepCopy h t).snd) ∧
      (∀ v, absTemplate ((ConstraintTemplate.deepCopy h t).fst.writeValidation b v)
          (ConstraintTemplate.deepCopy h t).snd =
        absTemplate (ConstraintTemplate.deepCopy h t).fst (ConstraintTemplate.deepCopy h t).snd) ∧
      (∀ sv, absTemplate ((ConstraintTemplate.deepCopy h t).fst.writeSchema b sv)
          (ConstraintTemplate.deepCopy h t).snd =
        absTemplate (ConstraintTemplate.deepCopy h t).fst
          (ConstraintTemplate.deepCopy h t).snd)) := by
  obtain ⟨om, ⟨⟨sp⟩, tg⟩, st⟩ := t
  have hwft : ∀ a ∈ tg.toList, a < h.next := by
    intro a ha
    exact hwf a (by simp [ConstraintTemplate.addrs, ha])
  have hwfv : ∀ a ∈ addrsValidation h sp.validation, a < h.next := by
    intro a ha
    exact hwf a (by simp [ConstraintTemplate.addrs, ha])
  obtain ⟨hnames, habsv, hfreshv, hnil⟩ := CRDSpec.deepCopy_spec h sp
  have hextB : Heap.ext h (CRDSpec.deepCopy h sp).fst := crdSpecDeepCopy_ext h sp
  rcases tg with _ | atg
  · -- nil targets map
    have hfst : (ConstraintTemplate.deepCopy h ⟨om, ⟨⟨sp⟩, none⟩, st⟩).fst =
        (CRDSpec.deepCopy h sp).fst := rfl
    have hsnd : (ConstraintTemplate.deepCopy h ⟨om, ⟨⟨sp⟩, none⟩, st⟩).snd =
        ⟨om, ⟨⟨(CRDSpec.deepCopy h sp).snd⟩, none⟩, st⟩ := rfl
    rw [hfst, hsnd]
    obtain ⟨habsv2, haddr2⟩ := absValidation_ext hextB sp.validation hwfv
    have habs_t : absTemplate (CRDSpec.deepCopy h sp).fst ⟨om, ⟨⟨sp⟩, none⟩, st⟩ =
        absTemplate h ⟨om, ⟨⟨sp⟩, none⟩, st⟩ := by
      simp only [absTemplate, absTargets]
      rw [habsv2]
    have habs_c : absTemplate (CRDSpec.deepCopy h sp).fst
        ⟨om, ⟨⟨(CRDSpec.deepCopy h sp).snd⟩, none⟩, st⟩ =
        absTemplate h ⟨om, ⟨⟨sp⟩, none⟩, st⟩ := by
      simp only [absTemplate, absTargets]
      rw [hnames, habsv]
    have hdisj : ∀ a ∈ ConstraintTemplate.addrs (CRDSpec.deepCopy h sp).fst
        ⟨om, ⟨⟨(CRDSpec.deepCopy h sp).snd⟩, none⟩, st⟩,
        ∀ b ∈ ConstraintTemplate.addrs (CRDSpec.deepCopy h sp).fst ⟨om, ⟨⟨sp⟩, none⟩, st⟩,
        a ≠ b := by
      intro a ha b hb
      simp only [ConstraintTemplate.addrs, Option.toList, List.nil_append] at ha hb
      rw [haddr2] at hb
      have h1 := (hfreshv a ha).1
      have h2 := hwfv b hb
      omega
    refine ⟨habs_c, habs_t, fun h0 => hnil h0, fun _ => rfl, hdisj, ?_, ?_⟩
    · intro a ha
      exact absTemplate_write_stable _ _ a (fun b hb => hdisj a ha b hb)
    · intro b hb
      exact absTemplate_write_stable _ _ b (fun a ha => (hdisj a ha b hb).symm)
  · -- targets map present
    have hfst : (ConstraintTemplate.deepCopy h ⟨om, ⟨⟨sp⟩, some atg⟩, st⟩).fst =
        ((CRDSpec.deepCopy h sp).fst.allocTargets
          (((CRDSpec.deepCopy h sp).fst.lookupTargets atg).getD [])).fst := rfl
    have hsnd : (ConstraintTemplate.deepCopy h ⟨om, ⟨⟨sp⟩, some atg⟩, st⟩).snd =
        ⟨om, ⟨⟨(CRDSpec.deepCopy h sp).snd⟩, some (CRDSpec.deepCopy h sp).fst.next⟩, st⟩ := rfl
    rw [hfst, hsnd]
    set hB := (CRDSpec.deepCopy h sp).fst with hhB
    set cspec := (CRDSpec.deepCopy h sp).snd with hcspec
    set m := (hB.lookupTargets atg).getD [] with hm
    set h2 := (hB.allocTargets m).fst with hh2
    have hextT : Heap.ext hB h2 := allocTargets_ext hB m
    have hext : Heap.ext h h2 := Heap.ext_trans hextB hextT
    have hvltB : ∀ a ∈ addrsValidation hB cspec.validation, a < hB.next :=
      fun a ha => (hfreshv a ha).2
    obtain ⟨habsv3, haddr3⟩ := absValidation_ext hextT cspec.validation hvltB
    obtain ⟨habsv2, haddr2⟩ := absValidation_ext hext sp.validation hwfv
    have hatg : atg < h.next := hwft atg (by simp)
    have htgeq : hB.lookupTargets atg = h.lookupTargets atg := (hextB.2 atg hatg).1
    have htgeq2 : h2.lookupTargets atg = h.lookupTargets atg := (hext.2 atg hatg).1
    have htgcell : h2.lookupTargets hB.next = some m := by
      rw [hh2]
      simp only [Heap.allocTargets, Heap.lookupTargets]
      exact lookupMem_cons_self _ _ _
    have habs_t : absTemplate h2 ⟨om, ⟨⟨sp⟩, some atg⟩, st⟩ =
        absTemplate h ⟨om, ⟨⟨sp⟩, some atg⟩, st⟩ := by
      simp only [absTemplate, absTargets]
      rw [habsv2, htgeq2]
    have habs_c : absTemplate h2 ⟨om, ⟨⟨cspec⟩, some hB.next⟩, st⟩ =
        absTemplate h ⟨om, ⟨⟨sp⟩, some atg⟩, st⟩ := by
      simp only [absTemplate, absTargets]
      rw [hnames, habsv3, habsv, htgcell]
      rw [hm, htgeq]
      simp
    have hdisj : ∀ a ∈ ConstraintTemplate.addrs h2 ⟨om, ⟨⟨cspec⟩, some hB.next⟩, st⟩,
        ∀ b ∈ ConstraintTemplate.addrs h2 ⟨om, ⟨⟨sp⟩, some atg⟩, st⟩, a ≠ b := by
      intro a ha b hb
      simp only [ConstraintTemplate.addrs, Option.toList, List.singleton_append,
        List.mem_cons] at ha hb
      rw [haddr3] at ha
      rw [haddr2] at hb
      have h1 : h.next ≤ a := by
        rcases ha with rfl | ha
        · exact hextB.1
        · exact (hfreshv a ha).1
      have h2lt : b < h.next := by
        rcases hb with rfl | hb
        · exact hatg
        · exact hwfv b hb
      omega
    refine ⟨habs_c, habs_t, fun h0 => hnil h0, fun h0 => absurd h0 (by simp), hdisj, ?_, ?_⟩
    · intro a ha
      exact absTemplate_write_stable _ _ a (fun b hb => hdisj a ha b hb)
    · intro b hb
      exact absTemplate_write_stable _ _ b (fun a ha => (hdisj a ha b hb).symm)

/-- C9 witness: copying a concrete template (with a one-entry targets map,
a validation cell, and a nested schema cell) yields a structurally equal
abstract view. -/
theorem c9_witness :
    absTemplate
      (ConstraintTemplate.deepCopy
        { next := 3, targetsMem := [(0, [("t1", {})])],
          validationMem := [(1, { openAPIV3Schema := some 2 })],
          schemaMem := [(2, { payload := "properties" })] }
        { objectMeta := "meta"
          spec :=
            { crd := { spec := { names := { kind := "K8sRequiredLabels" }, validation := some 1 } }
              targets := some 0 }
          status := "ready" }).fst
      (ConstraintTemplate.deepCopy
        { next := 3, targetsMem := [(0, [("t1", {})])],
          validationMem := [(1, { openAPIV3Schema := some 2 })],
          schemaMem := [(2, { payload := "properties" })] }
        { objectMeta := "meta"
          spec :=
            { crd := { spec := { names := { kind := "K8sRequiredLabels" }, validation := some 1 } }
              targets := some 0 }
          status := "ready" }).snd =
    absTemplate
      { next := 3, targetsMem := [(0, [("t1", {})])],
        validationMem := [(1, { openAPIV3Schema := some 2 })],
        schemaMem := [(2, { payload := "properties" })] }
      { objectMeta := "meta"
        spec :=
          { crd := { spec := { names := { kind := "K8sRequiredLabels" }, validation := some 1 } }
            targets := some 0 }
        status := "ready" } :=
  (c9_deepCopy_independence
    { next := 3, targetsMem := [(0, [("t1", {})])],
      validationMem := [(1, { openAPIV3Schema := some 2 })],
      schemaMem := [(2, { payload := "properties" })] }
    { objectMeta := "meta"
      spec :=
        { crd := { spec := { names := { kind := "K8sRequiredLabels" }, validation := some 1 } }
          targets := some 0 }
      status := "ready" }
    (by decide)).1

end V1alpha1

end Frameworks
